import Mathlib

/-!
Verification of the aptos-core peer-monitoring-service client core:
the per-peer monitoring state machine and request-lifecycle orchestrator
(`network/peer-monitoring-service/client/src/peer_states/peer_state.rs`)
and the response wire types
(`network/peer-monitoring-service/types/src/response.rs`).

Pure functions are embedded as Lean functions; stateful code is embedded
as explicit state passing plus an event trace; machine integers are `Nat`
with explicit bounds where overflow matters; fallible code returns
`Option` or `Except`.
-/

/-! ## Serialization primitives

Modelled from the spec: the wire format is produced by a canonical binary
serializer (the `bcs` crate plus serde derives, which live outside the
provided sources). The spec requires that serialization be deterministic,
byte-size-computable, and round-trip exactly. We model the canonical
encoding: little-endian fixed-width integers, ULEB128 length prefixes and
enum variant tags, length-prefixed byte sequences, and ordered maps as
length-prefixed sequences of key-value pairs. Bytes are `Nat` values;
every byte produced by the encoders is below 256. -/

/-- Fuel-driven worker for the ULEB128 encoder; a fuel of `n` always
suffices for encoding `n`, and the zero-fuel fallback is unreachable. -/
def uleb128EncodeAux : Nat → Nat → List Nat
  | 0, n => [n]
  | fuel + 1, n =>
    if n < 128 then [n]
    else (n % 128 + 128) :: uleb128EncodeAux fuel (n / 128)

/-- ULEB128 encoding of a natural number, used for sequence lengths and
enum variant tags. -/
def uleb128Encode (n : Nat) : List Nat :=
  uleb128EncodeAux n n

/-- ULEB128 decoding: returns the decoded number and the remaining bytes. -/
def uleb128Parse : List Nat → Option (Nat × List Nat)
  | [] => none
  | b :: rest =>
    if b < 128 then some (b, rest)
    else
      match uleb128Parse rest with
      | some (m, rest₂) => some ((b - 128) + 128 * m, rest₂)
      | none => none

/-- Little-endian fixed-width encoding of a natural number into `w` bytes. -/
def encodeUIntLE : Nat → Nat → List Nat
  | 0, _ => []
  | w + 1, n => n % 256 :: encodeUIntLE w (n / 256)

/-- Little-endian fixed-width decoding of `w` bytes. -/
def parseUIntLE : Nat → List Nat → Option (Nat × List Nat)
  | 0, s => some (0, s)
  | _ + 1, [] => none
  | w + 1, b :: rest =>
    match parseUIntLE w rest with
    | some (m, rest₂) => some (b + 256 * m, rest₂)
    | none => none

/-- Reads exactly `n` raw bytes from the stream. -/
def parseRaw (n : Nat) (s : List Nat) : Option (List Nat × List Nat) :=
  if n ≤ s.length then some (s.take n, s.drop n) else none

/-- Length-prefixed byte sequence (BCS `bytes` / strings / Vec of u8). -/
def encodeBytesPrefixed (b : List Nat) : List Nat :=
  uleb128Encode b.length ++ b

/-- Decodes a length-prefixed byte sequence. -/
def parseBytesPrefixed (s : List Nat) : Option (List Nat × List Nat) :=
  match uleb128Parse s with
  | some (n, rest) => parseRaw n rest
  | none => none

/-- Length-prefixed sequence of elements (BCS sequences and maps). -/
def encodeSeq (enc : α → List Nat) (l : List α) : List Nat :=
  uleb128Encode l.length ++ (l.map enc).flatten

/-- Decodes exactly `n` consecutive elements. -/
def parseCount (p : List Nat → Option (α × List Nat)) :
    Nat → List Nat → Option (List α × List Nat)
  | 0, s => some ([], s)
  | n + 1, s =>
    match p s with
    | some (a, s₂) =>
      match parseCount p n s₂ with
      | some (l, s₃) => some (a :: l, s₃)
      | none => none
    | none => none

/-- Decodes a length-prefixed sequence of elements. -/
def parseSeq (p : List Nat → Option (α × List Nat)) (s : List Nat) :
    Option (List α × List Nat) :=
  match uleb128Parse s with
  | some (n, rest) => parseCount p n rest
  | none => none

/-! ### Round-trip lemmas for the primitives -/

theorem uleb128Aux_round_trip (fuel : Nat) :
    ∀ n, n ≤ fuel → ∀ rest,
      uleb128Parse (uleb128EncodeAux fuel n ++ rest) = some (n, rest) := by
  induction fuel with
  | zero =>
    intro n hn rest
    interval_cases n
    simp [uleb128EncodeAux, uleb128Parse]
  | succ fuel ih =>
    intro n hn rest
    rw [uleb128EncodeAux]
    by_cases h : n < 128
    · simp [h, uleb128Parse]
    · have hd : n / 128 < n := Nat.div_lt_self (by omega) (by omega)
      simp only [h, if_false, List.cons_append, uleb128Parse]
      have hb : ¬ (n % 128 + 128 < 128) := by omega
      simp only [hb, if_false, ih (n / 128) (by omega) rest]
      have hmod := Nat.mod_add_div n 128
      simp only [Option.some.injEq, Prod.mk.injEq, and_true]
      omega

theorem uleb128_round_trip (n : Nat) :
    ∀ rest, uleb128Parse (uleb128Encode n ++ rest) = some (n, rest) :=
  fun rest => uleb128Aux_round_trip n n (le_refl n) rest

theorem parseUIntLE_round_trip (w : Nat) :
    ∀ n rest, n < 256 ^ w →
      parseUIntLE w (encodeUIntLE w n ++ rest) = some (n, rest) := by
  induction w with
  | zero =>
    intro n rest hn
    simp at hn
    simp [hn, encodeUIntLE, parseUIntLE]
  | succ w ih =>
    intro n rest hn
    simp only [encodeUIntLE, List.cons_append, parseUIntLE, List.append_eq]
    rw [ih (n / 256) rest (by
      rw [Nat.div_lt_iff_lt_mul (by omega)]
      calc n < 256 ^ (w + 1) := hn
        _ = 256 ^ w * 256 := by ring)]
    have hmod := Nat.mod_add_div n 256
    simp only [Option.some.injEq, Prod.mk.injEq, and_true]
    omega

theorem parseRaw_round_trip (b rest : List Nat) :
    parseRaw b.length (b ++ rest) = some (b, rest) := by
  simp [parseRaw, List.take_left, List.drop_left]

theorem parseBytesPrefixed_round_trip (b rest : List Nat) :
    parseBytesPrefixed (encodeBytesPrefixed b ++ rest) = some (b, rest) := by
  simp only [parseBytesPrefixed, encodeBytesPrefixed, List.append_assoc,
    uleb128_round_trip]
  exact parseRaw_round_trip b rest

theorem parseCount_round_trip (p : List Nat → Option (α × List Nat))
    (enc : α → List Nat) (l : List α)
    (h : ∀ a ∈ l, ∀ rest, p (enc a ++ rest) = some (a, rest)) :
    ∀ rest, parseCount p l.length ((l.map enc).flatten ++ rest) = some (l, rest) := by
  induction l with
  | nil => intro rest; simp [parseCount]
  | cons a l ih =>
    intro rest
    simp only [List.map_cons, List.flatten_cons, List.length_cons, parseCount,
      List.append_assoc]
    rw [h a (by simp) ((l.map enc).flatten ++ rest)]
    simp only [ih (fun a ha rest => h a (by simp [ha]) rest) rest]

theorem parseSeq_round_trip (p : List Nat → Option (α × List Nat))
    (enc : α → List Nat) (l : List α)
    (h : ∀ a ∈ l, ∀ rest, p (enc a ++ rest) = some (a, rest)) (rest : List Nat) :
    parseSeq p (encodeSeq enc l ++ rest) = some (l, rest) := by
  simp only [parseSeq, encodeSeq, List.append_assoc, uleb128_round_trip]
  exact parseCount_round_trip p enc l h rest

/-! ## Response wire types

From `network/peer-monitoring-service/types/src/response.rs`. The
feature-gated `PerformanceMonitoring` case is disabled by default and
omitted. Leaf types defined outside the provided sources are modelled
from the spec:
- `PeerId` is a fixed 32-byte account address (raw bytes on the wire);
- `NetworkAddress` is modelled as its serialized byte sequence
  (length-prefixed bytes on the wire);
- `NetworkId` and `PeerRole` are closed enums (variant tag on the wire);
- `Duration` is the serde representation: seconds (u64) plus
  subsecond nanoseconds (u32);
- strings are modelled as their UTF-8 byte sequences. -/

/-- Modelled from the spec: a peer id (32-byte account address). -/
abbrev PeerId : Type := List Nat

/-- Modelled from the spec: a network address, as its serialized bytes. -/
abbrev NetworkAddress : Type := List Nat

/-- Modelled from the spec: the closed set of network identifiers. -/
inductive NetworkId
  | Validator
  | Vfn
  | Public
deriving DecidableEq

/-- Modelled from the spec: a peer on a network (network id plus peer id). -/
structure PeerNetworkId where
  network_id : NetworkId
  peer_id : PeerId
deriving DecidableEq

/-- Modelled from the spec: the closed set of peer roles. -/
inductive PeerRole
  | Validator
  | PreferredUpstream
  | Upstream
  | ValidatorFullNode
  | Downstream
  | Known
  | Unknown
deriving DecidableEq

/-- Modelled from the spec: the serde representation of a Duration
(seconds plus subsecond nanoseconds). -/
structure DurationRepr where
  secs : Nat
  nanos : Nat
deriving DecidableEq

/-- A string modelled as its UTF-8 byte sequence. -/
abbrev ByteString : Type := List Nat

/-- A response for the latency ping request. -/
structure LatencyPingResponse where
  ping_counter : Nat
deriving DecidableEq

/-- Simple connection metadata associated with each peer. -/
structure ConnectionMetadata where
  network_address : NetworkAddress
  peer_id : PeerId
  peer_role : PeerRole
deriving DecidableEq

/-- A response for the network information request. The `BTreeMap` of
connected peers is modelled as its entry list in key order. -/
structure NetworkInformationResponse where
  connected_peers : List (PeerNetworkId × ConnectionMetadata)
  distance_from_validators : Nat
deriving DecidableEq

/-- A response for the server protocol version request. -/
structure ServerProtocolVersionResponse where
  version : Nat
deriving DecidableEq

/-- A response for the node information request. The `BTreeMap` of build
information is modelled as its entry list in key order. -/
structure NodeInformationResponse where
  build_information : List (ByteString × ByteString)
  highest_synced_epoch : Nat
  highest_synced_version : Nat
  ledger_timestamp_usecs : Nat
  lowest_available_version : Nat
  uptime : DurationRepr
deriving DecidableEq

/-- A peer monitoring service response. -/
inductive PeerMonitoringServiceResponse
  | LatencyPing (r : LatencyPingResponse)
  | NetworkInformation (r : NetworkInformationResponse)
  | NodeInformation (r : NodeInformationResponse)
  | ServerProtocolVersion (r : ServerProtocolVersionResponse)
deriving DecidableEq

/-- Error raised on a mismatched response variant
(`UnexpectedResponseError` in `response.rs`). -/
structure UnexpectedResponseError where
  message : String
deriving DecidableEq

/-- Returns a summary label for the response (`get_label`). -/
def PeerMonitoringServiceResponse.get_label :
    PeerMonitoringServiceResponse → String
  | .LatencyPing _ => "latency_ping"
  | .NetworkInformation _ => "network_information"
  | .NodeInformation _ => "node_information"
  | .ServerProtocolVersion _ => "server_protocol_version"

/-! ### Typed extractions (the `TryFrom` impls in `response.rs`) -/

/-- Extraction of a `LatencyPingResponse` from the response union. -/
def LatencyPingResponse.try_from (response : PeerMonitoringServiceResponse) :
    Except UnexpectedResponseError LatencyPingResponse :=
  match response with
  | .LatencyPing inner => .ok inner
  | _ => .error ⟨"expected latency_ping_response, found " ++ response.get_label⟩

/-- Extraction of a `NetworkInformationResponse` from the response union. -/
def NetworkInformationResponse.try_from
    (response : PeerMonitoringServiceResponse) :
    Except UnexpectedResponseError NetworkInformationResponse :=
  match response with
  | .NetworkInformation inner => .ok inner
  | _ =>
    .error ⟨"expected network_information_response, found " ++ response.get_label⟩

/-- Extraction of a `NodeInformationResponse` from the response union. -/
def NodeInformationResponse.try_from (response : PeerMonitoringServiceResponse) :
    Except UnexpectedResponseError NodeInformationResponse :=
  match response with
  | .NodeInformation inner => .ok inner
  | _ =>
    .error ⟨"expected node_information_response, found " ++ response.get_label⟩

/-- Extraction of a `ServerProtocolVersionResponse` from the response union. -/
def ServerProtocolVersionResponse.try_from
    (response : PeerMonitoringServiceResponse) :
    Except UnexpectedResponseError ServerProtocolVersionResponse :=
  match response with
  | .ServerProtocolVersion inner => .ok inner
  | _ =>
    .error
      ⟨"expected server_protocol_version_response, found " ++ response.get_label⟩

/-! ### Wire encoding of the response types

Modelled from the spec: the BCS encoding derived by serde for the
response types (the `bcs` crate and the serde derives live outside the
provided sources). Struct fields are encoded in declaration order; enum
values are a ULEB128 variant tag followed by the payload; ordered maps
are length-prefixed sequences of key-value pairs in key order. -/

/-- Wire encoding of a `NetworkId` (variant tag). -/
def NetworkId.encode : NetworkId → List Nat
  | .Validator => uleb128Encode 0
  | .Vfn => uleb128Encode 1
  | .Public => uleb128Encode 2

/-- Decodes a `NetworkId`. -/
def NetworkId.parse (s : List Nat) : Option (NetworkId × List Nat) :=
  match uleb128Parse s with
  | some (0, rest) => some (.Validator, rest)
  | some (1, rest) => some (.Vfn, rest)
  | some (2, rest) => some (.Public, rest)
  | _ => none

/-- Wire encoding of a `PeerNetworkId` (network id, then 32 raw bytes of
peer id). -/
def PeerNetworkId.encode (p : PeerNetworkId) : List Nat :=
  p.network_id.encode ++ p.peer_id

/-- Decodes a `PeerNetworkId`. -/
def PeerNetworkId.parse (s : List Nat) : Option (PeerNetworkId × List Nat) :=
  match NetworkId.parse s with
  | some (nid, rest) =>
    match parseRaw 32 rest with
    | some (pid, rest₂) => some (⟨nid, pid⟩, rest₂)
    | none => none
  | none => none

/-- Wire encoding of a `PeerRole` (variant tag). -/
def PeerRole.encode : PeerRole → List Nat
  | .Validator => uleb128Encode 0
  | .PreferredUpstream => uleb128Encode 1
  | .Upstream => uleb128Encode 2
  | .ValidatorFullNode => uleb128Encode 3
  | .Downstream => uleb128Encode 4
  | .Known => uleb128Encode 5
  | .Unknown => uleb128Encode 6

/-- Decodes a `PeerRole`. -/
def PeerRole.parse (s : List Nat) : Option (PeerRole × List Nat) :=
  match uleb128Parse s with
  | some (0, rest) => some (.Validator, rest)
  | some (1, rest) => some (.PreferredUpstream, rest)
  | some (2, rest) => some (.Upstream, rest)
  | some (3, rest) => some (.ValidatorFullNode, rest)
  | some (4, rest) => some (.Downstream, rest)
  | some (5, rest) => some (.Known, rest)
  | some (6, rest) => some (.Unknown, rest)
  | _ => none

/-- Wire encoding of a `ConnectionMetadata` (fields in declaration order). -/
def ConnectionMetadata.encode (c : ConnectionMetadata) : List Nat :=
  encodeBytesPrefixed c.network_address ++ c.peer_id ++ c.peer_role.encode

/-- Decodes a `ConnectionMetadata`. -/
def ConnectionMetadata.parse (s : List Nat) :
    Option (ConnectionMetadata × List Nat) :=
  match parseBytesPrefixed s with
  | some (addr, rest) =>
    match parseRaw 32 rest with
    | some (pid, rest₂) =>
      match PeerRole.parse rest₂ with
      | some (role, rest₃) => some (⟨addr, pid, role⟩, rest₃)
      | none => none
    | none => none
  | none => none

/-- Wire encoding of a connected-peers map entry. -/
def encodePeerEntry (e : PeerNetworkId × ConnectionMetadata) : List Nat :=
  e.1.encode ++ e.2.encode

/-- Decodes a connected-peers map entry. -/
def parsePeerEntry (s : List Nat) :
    Option ((PeerNetworkId × ConnectionMetadata) × List Nat) :=
  match PeerNetworkId.parse s with
  | some (k, rest) =>
    match ConnectionMetadata.parse rest with
    | some (v, rest₂) => some ((k, v), rest₂)
    | none => none
  | none => none

/-- Wire encoding of a build-information map entry (two strings). -/
def encodeBuildEntry (e : ByteString × ByteString) : List Nat :=
  encodeBytesPrefixed e.1 ++ encodeBytesPrefixed e.2

/-- Decodes a build-information map entry. -/
def parseBuildEntry (s : List Nat) :
    Option ((ByteString × ByteString) × List Nat) :=
  match parseBytesPrefixed s with
  | some (k, rest) =>
    match parseBytesPrefixed rest with
    | some (v, rest₂) => some ((k, v), rest₂)
    | none => none
  | none => none

/-- Wire encoding of a `DurationRepr` (u64 seconds, u32 nanoseconds). -/
def DurationRepr.encode (d : DurationRepr) : List Nat :=
  encodeUIntLE 8 d.secs ++ encodeUIntLE 4 d.nanos

/-- Decodes a `DurationRepr`. -/
def DurationRepr.parse (s : List Nat) : Option (DurationRepr × List Nat) :=
  match parseUIntLE 8 s with
  | some (secs, rest) =>
    match parseUIntLE 4 rest with
    | some (nanos, rest₂) => some (⟨secs, nanos⟩, rest₂)
    | none => none
  | none => none

/-- Wire encoding of a `LatencyPingResponse`. -/
def LatencyPingResponse.encode (r : LatencyPingResponse) : List Nat :=
  encodeUIntLE 8 r.ping_counter

/-- Decodes a `LatencyPingResponse`. -/
def LatencyPingResponse.parse (s : List Nat) :
    Option (LatencyPingResponse × List Nat) :=
  match parseUIntLE 8 s with
  | some (n, rest) => some (⟨n⟩, rest)
  | none => none

/-- Wire encoding of a `NetworkInformationResponse`. -/
def NetworkInformationResponse.encode (r : NetworkInformationResponse) :
    List Nat :=
  encodeSeq encodePeerEntry r.connected_peers ++
    encodeUIntLE 8 r.distance_from_validators

/-- Decodes a `NetworkInformationResponse`. -/
def NetworkInformationResponse.parse (s : List Nat) :
    Option (NetworkInformationResponse × List Nat) :=
  match parseSeq parsePeerEntry s with
  | some (peers, rest) =>
    match parseUIntLE 8 rest with
    | some (d, rest₂) => some (⟨peers, d⟩, rest₂)
    | none => none
  | none => none

/-- Wire encoding of a `NodeInformationResponse` (fields in declaration
order). -/
def NodeInformationResponse.encode (r : NodeInformationResponse) : List Nat :=
  encodeSeq encodeBuildEntry r.build_information ++
    encodeUIntLE 8 r.highest_synced_epoch ++
    encodeUIntLE 8 r.highest_synced_version ++
    encodeUIntLE 8 r.ledger_timestamp_usecs ++
    encodeUIntLE 8 r.lowest_available_version ++
    r.uptime.encode

/-- Decodes a `NodeInformationResponse`. -/
def NodeInformationResponse.parse (s : List Nat) :
    Option (NodeInformationResponse × List Nat) :=
  match parseSeq parseBuildEntry s with
  | some (build, rest) =>
    match parseUIntLE 8 rest with
    | some (epoch, rest₂) =>
      match parseUIntLE 8 rest₂ with
      | some (version, rest₃) =>
        match parseUIntLE 8 rest₃ with
        | some (ts, rest₄) =>
          match parseUIntLE 8 rest₄ with
          | some (lowest, rest₅) =>
            match DurationRepr.parse rest₅ with
            | some (uptime, rest₆) =>
              some (⟨build, epoch, version, ts, lowest, uptime⟩, rest₆)
            | none => none
          | none => none
        | none => none
      | none => none
    | none => none
  | none => none

/-- Wire encoding of a `ServerProtocolVersionResponse`. -/
def ServerProtocolVersionResponse.encode (r : ServerProtocolVersionResponse) :
    List Nat :=
  encodeUIntLE 8 r.version

/-- Decodes a `ServerProtocolVersionResponse`. -/
def ServerProtocolVersionResponse.parse (s : List Nat) :
    Option (ServerProtocolVersionResponse × List Nat) :=
  match parseUIntLE 8 s with
  | some (n, rest) => some (⟨n⟩, rest)
  | none => none

/-- Wire encoding of the response union (variant tag, then payload). -/
def PeerMonitoringServiceResponse.encode :
    PeerMonitoringServiceResponse → List Nat
  | .LatencyPing r => uleb128Encode 0 ++ r.encode
  | .NetworkInformation r => uleb128Encode 1 ++ r.encode
  | .NodeInformation r => uleb128Encode 2 ++ r.encode
  | .ServerProtocolVersion r => uleb128Encode 3 ++ r.encode

/-- Decodes a `PeerMonitoringServiceResponse` with trailing bytes. -/
def PeerMonitoringServiceResponse.parse (s : List Nat) :
    Option (PeerMonitoringServiceResponse × List Nat) :=
  match uleb128Parse s with
  | some (0, rest) =>
    match LatencyPingResponse.parse rest with
    | some (r, rest₂) => some (.LatencyPing r, rest₂)
    | none => none
  | some (1, rest) =>
    match NetworkInformationResponse.parse rest with
    | some (r, rest₂) => some (.NetworkInformation r, rest₂)
    | none => none
  | some (2, rest) =>
    match NodeInformationResponse.parse rest with
    | some (r, rest₂) => some (.NodeInformation r, rest₂)
    | none => none
  | some (3, rest) =>
    match ServerProtocolVersionResponse.parse rest with
    | some (r, rest₂) => some (.ServerProtocolVersion r, rest₂)
    | none => none
  | _ => none

/-- Full deserialization: decodes a response and requires that the whole
input is consumed (matching deserializer behavior for the wire format). -/
def PeerMonitoringServiceResponse.decode (s : List Nat) :
    Option PeerMonitoringServiceResponse :=
  match PeerMonitoringServiceResponse.parse s with
  | some (r, []) => some r
  | _ => none

/-- Returns the number of bytes in the serialized response
(`get_num_bytes` in `response.rs`; serialization of these types always
succeeds, so the error branch is unreachable in the model). -/
def PeerMonitoringServiceResponse.get_num_bytes
    (r : PeerMonitoringServiceResponse) : Except UnexpectedResponseError Nat :=
  .ok r.encode.length

/-! ### Well-formedness of response values

These predicates record the machine-integer bounds and fixed-width
invariants that the Rust types carry by construction (u64 and u32 fields,
32-byte peer ids). -/

/-- Well-formedness of a `PeerNetworkId`: the peer id is 32 bytes. -/
def PeerNetworkId.WF (p : PeerNetworkId) : Prop := p.peer_id.length = 32

/-- Well-formedness of a `ConnectionMetadata`: the peer id is 32 bytes. -/
def ConnectionMetadata.WF (c : ConnectionMetadata) : Prop :=
  c.peer_id.length = 32

/-- Well-formedness of a `DurationRepr`: u64 seconds and u32 nanoseconds. -/
def DurationRepr.WF (d : DurationRepr) : Prop :=
  d.secs < 2 ^ 64 ∧ d.nanos < 2 ^ 32

/-- Well-formedness of a `LatencyPingResponse`: u64 counter. -/
def LatencyPingResponse.WF (r : LatencyPingResponse) : Prop :=
  r.ping_counter < 2 ^ 64

/-- Well-formedness of a `NetworkInformationResponse`. -/
def NetworkInformationResponse.WF (r : NetworkInformationResponse) : Prop :=
  r.distance_from_validators < 2 ^ 64 ∧
    ∀ e ∈ r.connected_peers, e.1.WF ∧ e.2.WF

/-- Well-formedness of a `NodeInformationResponse`. -/
def NodeInformationResponse.WF (r : NodeInformationResponse) : Prop :=
  r.highest_synced_epoch < 2 ^ 64 ∧ r.highest_synced_version < 2 ^ 64 ∧
    r.ledger_timestamp_usecs < 2 ^ 64 ∧ r.lowest_available_version < 2 ^ 64 ∧
    r.uptime.WF

/-- Well-formedness of a `ServerProtocolVersionResponse`: u64 version. -/
def ServerProtocolVersionResponse.WF (r : ServerProtocolVersionResponse) :
    Prop :=
  r.version < 2 ^ 64

/-- Well-formedness of a `PeerMonitoringServiceResponse`. -/
def PeerMonitoringServiceResponse.WF : PeerMonitoringServiceResponse → Prop
  | .LatencyPing r => r.WF
  | .NetworkInformation r => r.WF
  | .NodeInformation r => r.WF
  | .ServerProtocolVersion r => r.WF

instance (p : PeerNetworkId) : Decidable p.WF :=
  inferInstanceAs (Decidable (_ = _))

instance (c : ConnectionMetadata) : Decidable c.WF :=
  inferInstanceAs (Decidable (_ = _))

instance (d : DurationRepr) : Decidable d.WF :=
  inferInstanceAs (Decidable (_ ∧ _))

instance (r : LatencyPingResponse) : Decidable r.WF :=
  inferInstanceAs (Decidable (_ < _))

instance (r : NetworkInformationResponse) : Decidable r.WF :=
  inferInstanceAs (Decidable (_ ∧ _))

instance (r : NodeInformationResponse) : Decidable r.WF :=
  inferInstanceAs (Decidable (_ ∧ _))

instance (r : ServerProtocolVersionResponse) : Decidable r.WF :=
  inferInstanceAs (Decidable (_ < _))

instance : ∀ r : PeerMonitoringServiceResponse, Decidable r.WF
  | .LatencyPing r => inferInstanceAs (Decidable r.WF)
  | .NetworkInformation r => inferInstanceAs (Decidable r.WF)
  | .NodeInformation r => inferInstanceAs (Decidable r.WF)
  | .ServerProtocolVersion r => inferInstanceAs (Decidable r.WF)

/-! ### Round-trip lemmas for the response types -/

theorem networkId_round_trip (nid : NetworkId) (rest : List Nat) :
    NetworkId.parse (nid.encode ++ rest) = some (nid, rest) := by
  cases nid <;>
    simp [NetworkId.parse, NetworkId.encode, uleb128_round_trip]

theorem peerNetworkId_round_trip (p : PeerNetworkId) (h : p.WF)
    (rest : List Nat) : PeerNetworkId.parse (p.encode ++ rest) = some (p, rest) := by
  have hraw : parseRaw 32 (p.peer_id ++ rest) = some (p.peer_id, rest) := by
    rw [← h]
    exact parseRaw_round_trip p.peer_id rest
  simp [PeerNetworkId.parse, PeerNetworkId.encode, networkId_round_trip,
    hraw]

theorem peerRole_round_trip (role : PeerRole) (rest : List Nat) :
    PeerRole.parse (role.encode ++ rest) = some (role, rest) := by
  cases role <;>
    simp [PeerRole.parse, PeerRole.encode, uleb128_round_trip]

theorem connectionMetadata_round_trip (c : ConnectionMetadata) (h : c.WF)
    (rest : List Nat) :
    ConnectionMetadata.parse (c.encode ++ rest) = some (c, rest) := by
  have hraw : parseRaw 32 (c.peer_id ++ (c.peer_role.encode ++ rest)) =
      some (c.peer_id, c.peer_role.encode ++ rest) := by
    rw [← h]
    exact parseRaw_round_trip c.peer_id _
  simp [ConnectionMetadata.parse, ConnectionMetadata.encode,
    List.append_assoc, parseBytesPrefixed_round_trip, hraw,
    peerRole_round_trip]

theorem parsePeerEntry_encode (e : PeerNetworkId × ConnectionMetadata)
    (h₁ : e.1.WF) (h₂ : e.2.WF) (rest : List Nat) :
    parsePeerEntry (encodePeerEntry e ++ rest) = some (e, rest) := by
  simp [parsePeerEntry, encodePeerEntry, List.append_assoc,
    peerNetworkId_round_trip e.1 h₁, connectionMetadata_round_trip e.2 h₂]

theorem parseBuildEntry_encode (e : ByteString × ByteString)
    (rest : List Nat) :
    parseBuildEntry (encodeBuildEntry e ++ rest) = some (e, rest) := by
  simp [parseBuildEntry, encodeBuildEntry, List.append_assoc,
    parseBytesPrefixed_round_trip]

theorem durationRepr_round_trip (d : DurationRepr) (h : d.WF)
    (rest : List Nat) : DurationRepr.parse (d.encode ++ rest) = some (d, rest) := by
  obtain ⟨hs, hn⟩ := h
  simp [DurationRepr.parse, DurationRepr.encode, List.append_assoc,
    parseUIntLE_round_trip 8 d.secs _ (by norm_num at hs ⊢; omega),
    parseUIntLE_round_trip 4 d.nanos rest (by norm_num at hn ⊢; omega)]

theorem latencyPing_round_trip (r : LatencyPingResponse) (h : r.WF)
    (rest : List Nat) :
    LatencyPingResponse.parse (r.encode ++ rest) = some (r, rest) := by
  have hb : r.ping_counter < 256 ^ 8 := by
    rw [show (256 : Nat) ^ 8 = 2 ^ 64 by norm_num]
    exact h
  simp [LatencyPingResponse.parse, LatencyPingResponse.encode,
    parseUIntLE_round_trip 8 r.ping_counter rest hb]

theorem networkInformation_round_trip
    (r : NetworkInformationResponse) (h : r.WF) (rest : List Nat) :
    NetworkInformationResponse.parse (r.encode ++ rest) = some (r, rest) := by
  obtain ⟨hd, hpeers⟩ := h
  have hseq := parseSeq_round_trip parsePeerEntry encodePeerEntry
    r.connected_peers
    (fun e he rest => parsePeerEntry_encode e (hpeers e he).1 (hpeers e he).2 rest)
    (encodeUIntLE 8 r.distance_from_validators ++ rest)
  simp [NetworkInformationResponse.parse, NetworkInformationResponse.encode,
    List.append_assoc, hseq,
    parseUIntLE_round_trip 8 r.distance_from_validators rest
      (by norm_num at hd ⊢; omega)]

theorem nodeInformation_round_trip (r : NodeInformationResponse)
    (h : r.WF) (rest : List Nat) :
    NodeInformationResponse.parse (r.encode ++ rest) = some (r, rest) := by
  obtain ⟨h₁, h₂, h₃, h₄, h₅⟩ := h
  have hseq := parseSeq_round_trip parseBuildEntry encodeBuildEntry
    r.build_information (fun e _ rest => parseBuildEntry_encode e rest)
    (encodeUIntLE 8 r.highest_synced_epoch ++
      (encodeUIntLE 8 r.highest_synced_version ++
        (encodeUIntLE 8 r.ledger_timestamp_usecs ++
          (encodeUIntLE 8 r.lowest_available_version ++
            (r.uptime.encode ++ rest)))))
  simp [NodeInformationResponse.parse, NodeInformationResponse.encode,
    List.append_assoc, hseq,
    parseUIntLE_round_trip 8 r.highest_synced_epoch _ (by norm_num at h₁ ⊢; omega),
    parseUIntLE_round_trip 8 r.highest_synced_version _ (by norm_num at h₂ ⊢; omega),
    parseUIntLE_round_trip 8 r.ledger_timestamp_usecs _ (by norm_num at h₃ ⊢; omega),
    parseUIntLE_round_trip 8 r.lowest_available_version _ (by norm_num at h₄ ⊢; omega),
    durationRepr_round_trip r.uptime h₅ rest]

theorem serverProtocolVersion_round_trip
    (r : ServerProtocolVersionResponse) (h : r.WF) (rest : List Nat) :
    ServerProtocolVersionResponse.parse (r.encode ++ rest) = some (r, rest) := by
  have hb : r.version < 256 ^ 8 := by
    rw [show (256 : Nat) ^ 8 = 2 ^ 64 by norm_num]
    exact h
  simp [ServerProtocolVersionResponse.parse,
    ServerProtocolVersionResponse.encode,
    parseUIntLE_round_trip 8 r.version rest hb]

theorem response_parse_encode
    (r : PeerMonitoringServiceResponse) (h : r.WF) (rest : List Nat) :
    PeerMonitoringServiceResponse.parse (r.encode ++ rest) = some (r, rest) := by
  cases r with
  | LatencyPing r =>
    simp [PeerMonitoringServiceResponse.parse,
      PeerMonitoringServiceResponse.encode, List.append_assoc,
      uleb128_round_trip, latencyPing_round_trip r h rest]
  | NetworkInformation r =>
    simp [PeerMonitoringServiceResponse.parse,
      PeerMonitoringServiceResponse.encode, List.append_assoc,
      uleb128_round_trip, networkInformation_round_trip r h rest]
  | NodeInformation r =>
    simp [PeerMonitoringServiceResponse.parse,
      PeerMonitoringServiceResponse.encode, List.append_assoc,
      uleb128_round_trip, nodeInformation_round_trip r h rest]
  | ServerProtocolVersion r =>
    simp [PeerMonitoringServiceResponse.parse,
      PeerMonitoringServiceResponse.encode, List.append_assoc,
      uleb128_round_trip, serverProtocolVersion_round_trip r h rest]

/-! ## Request tracker and peer state

The request tracker and the per-dimension state values are defined in
`request_tracker.rs` and `key_value.rs`, which are not among the provided
sources; they are modelled from the spec. The `PeerState` container and
`refresh_peer_state_key` orchestrator are embedded from
`peer_state.rs`. -/

/-- Errors of the monitoring client (`Error::UnexpectedError`). -/
inductive Error
  | UnexpectedError (message : String)
deriving DecidableEq

/-- Configuration surface consumed by the orchestrator (from the node
configuration, outside the provided sources): max request jitter in
milliseconds, max response size in bytes, and the base request timeout. -/
structure PeerMonitoringServiceConfig where
  max_request_jitter_ms : Nat
  max_num_response_bytes : Nat
  max_request_timeout_ms : Nat
deriving DecidableEq

/-- The node configuration, restricted to the part this core consumes. -/
structure NodeConfig where
  peer_monitoring_service : PeerMonitoringServiceConfig
deriving DecidableEq

/-- Modelled from the spec: the `RequestTracker` state machine
(`request_tracker.rs`): in-flight flag, last request time, and the
consecutive-failure counter. -/
structure RequestTracker where
  in_flight : Bool
  last_request_time : Option Nat
  num_consecutive_failures : Nat
deriving DecidableEq

/-- Modelled from the spec: `requestStarted()` sets the in-flight flag and
the last request time. -/
def RequestTracker.request_started (t : RequestTracker) (now : Nat) :
    RequestTracker :=
  { t with in_flight := true, last_request_time := some now }

/-- Modelled from the spec: `requestCompleted()` clears the in-flight
flag. -/
def RequestTracker.request_completed (t : RequestTracker) : RequestTracker :=
  { t with in_flight := false }

/-- Modelled from the spec: `recordSuccess()` resets the
consecutive-failure counter. -/
def RequestTracker.record_success (t : RequestTracker) : RequestTracker :=
  { t with num_consecutive_failures := 0 }

/-- Modelled from the spec: `recordFailure()` increments the
consecutive-failure counter. -/
def RequestTracker.record_failure (t : RequestTracker) : RequestTracker :=
  { t with num_consecutive_failures := t.num_consecutive_failures + 1 }

/-- Modelled from the spec: a fresh tracker is idle with no last request
time and no failures. -/
def RequestTracker.new : RequestTracker :=
  { in_flight := false, last_request_time := none,
    num_consecutive_failures := 0 }

/-- Modelled from the spec: the closed registry of monitoring dimensions
(`PeerStateKey` in `key_value.rs`; these are the keys the provided
sources name, with the feature-gated performance-monitoring key
omitted). -/
inductive PeerStateKey
  | LatencyInfo
  | NetworkInfo
  | NodeInfo
deriving DecidableEq

/-- Modelled from the spec: `PeerStateKey::get_all_keys`, the complete,
stable key set of the registry. -/
def PeerStateKey.get_all_keys : List PeerStateKey :=
  [.LatencyInfo, .NetworkInfo, .NodeInfo]

/-- The monitoring service request built by a dimension state; only its
dimension label is relevant to the orchestrator. -/
structure MonitoringServiceRequest where
  key : PeerStateKey
deriving DecidableEq

/-- Modelled from the spec: the per-dimension state value
(`PeerStateValue` in `key_value.rs`): the dimension key, its embedded
request tracker, dimension-specific accumulated knowledge abstracted to
the monotonic request counter it embeds in requests, and the
dimension-specific base request timeout seeded from the configuration. -/
structure PeerStateValue where
  key : PeerStateKey
  request_tracker : RequestTracker
  request_counter : Nat
  base_timeout_ms : Nat
deriving DecidableEq

/-- Modelled from the spec: `PeerStateValue::new` seeds a dimension state
with an idle tracker and config-derived timeout context. -/
def PeerStateValue.new (node_config : NodeConfig) (key : PeerStateKey) :
    PeerStateValue :=
  { key := key, request_tracker := RequestTracker.new, request_counter := 0,
    base_timeout_ms :=
      node_config.peer_monitoring_service.max_request_timeout_ms }

/-- Modelled from the spec: `create_monitoring_service_request` builds the
next outbound request (incrementing the embedded counter). -/
def PeerStateValue.create_monitoring_service_request (v : PeerStateValue) :
    PeerStateValue × MonitoringServiceRequest :=
  ({ v with request_counter := v.request_counter + 1 }, ⟨v.key⟩)

/-- Modelled from the spec: `get_request_timeout_ms` derives the request
timeout for the dimension. -/
def PeerStateValue.get_request_timeout_ms (v : PeerStateValue) : Nat :=
  v.base_timeout_ms

/-- Modelled from the spec: `handle_monitoring_service_response_error`
records a failure on the tracker and never touches the in-flight flag. -/
def PeerStateValue.handle_monitoring_service_response_error
    (v : PeerStateValue) : PeerStateValue :=
  { v with request_tracker := v.request_tracker.record_failure }

/-- Modelled from the spec: `handle_monitoring_service_response` merges a
validated response and records a success on the tracker. -/
def PeerStateValue.handle_monitoring_service_response (v : PeerStateValue) :
    PeerStateValue :=
  { v with request_tracker := v.request_tracker.record_success }

/-! ## The peer state container and the refresh orchestrator

Embedded from `peer_state.rs`. The `HashMap` of state entries is modelled
as an association list with `HashMap::insert` semantics; the shared
`Arc<RwLock<...>>` cells become in-place value replacement in the map.
The spawned request task (lines 91-153) is represented by the data it
captures (`RequestTask`) together with its event trace and its effect on
the captured state cell, both as functions of the transport outcome. -/

/-- The peer state: one state entry per peer state key. -/
structure PeerState where
  state_entries : List (PeerStateKey × PeerStateValue)
deriving DecidableEq

/-- Association-list lookup with `HashMap::get` semantics. -/
def lookupEntry : List (PeerStateKey × PeerStateValue) → PeerStateKey →
    Option PeerStateValue
  | [], _ => none
  | e :: rest, k => if e.1 = k then some e.2 else lookupEntry rest k

/-- Association-list insertion with `HashMap::insert` semantics: replaces
the value when the key is present, otherwise adds a new entry. -/
def insertEntry (m : List (PeerStateKey × PeerStateValue))
    (k : PeerStateKey) (v : PeerStateValue) :
    List (PeerStateKey × PeerStateValue) :=
  if m.any (fun e => e.1 = k) then
    m.map fun e => if e.1 = k then (e.1, v) else e
  else m ++ [(k, v)]

/-- Creates the peer state with a state entry for each peer state key
(`PeerState::new`). -/
def PeerState.new (node_config : NodeConfig) : PeerState :=
  ⟨PeerStateKey.get_all_keys.foldl
    (fun entries key => insertEntry entries key (PeerStateValue.new node_config key))
    []⟩

/-- The key set of the peer state map. -/
def PeerState.keys (ps : PeerState) : List PeerStateKey :=
  ps.state_entries.map (·.1)

/-- Returns the peer state value associated with the given key
(`get_peer_state_value`). -/
def PeerState.get_peer_state_value (ps : PeerState) (key : PeerStateKey) :
    Except Error PeerStateValue :=
  match lookupEntry ps.state_entries key with
  | some v => .ok v
  | none =>
    .error (.UnexpectedError
      "Failed to find the peer state value for the peer state key")

/-- Returns the request tracker for the given peer state key
(`get_request_tracker`). -/
def PeerState.get_request_tracker (ps : PeerState) (key : PeerStateKey) :
    Except Error RequestTracker :=
  (ps.get_peer_state_value key).map (·.request_tracker)

/-- Replaces, in place, the value stored at a key (a write through the
shared `Arc<RwLock<PeerStateValue>>` cell of that entry). -/
def PeerState.set_value (ps : PeerState) (key : PeerStateKey)
    (v : PeerStateValue) : PeerState :=
  ⟨ps.state_entries.map fun e => if e.1 = key then (e.1, v) else e⟩

/-- Model of `OsRng.gen_range(low, high)` from the `rand` crate: draws
from the half-open range `[low, high)`, the `entropy` argument standing
for the generator output. The call panics when the range is empty
(`low >= high`), modelled as `none`. -/
def gen_range (low high entropy : Nat) : Option Nat :=
  if low < high then some (low + entropy % (high - low)) else none

/-- Sanity checks that the monitoring service response size is valid,
i.e. that it respects the max message size
(`sanity_check_response_size`). -/
def sanity_check_response_size (max_num_response_bytes : Nat)
    (monitoring_service_response : PeerMonitoringServiceResponse) :
    Except Error Unit :=
  match monitoring_service_response.get_num_bytes with
  | .error e => .error (.UnexpectedError e.message)
  | .ok num_response_bytes =>
    if num_response_bytes > max_num_response_bytes then
      .error (.UnexpectedError "The monitoring service response is too large")
    else
      .ok ()

/-- Observable events of a refresh attempt, in program order. -/
inductive RefreshEvent
  | request_started
  | create_request
  | compute_jitter (ms : Nat)
  | spawn_task
  | sleep (ms : Nat)
  | send_request
  | request_completed
  | handle_error
  | handle_response
  | observe_latency_metric
deriving DecidableEq

/-- The outcome of the transport call
(`network::send_request_to_peer`): a response, or a transport or
protocol error. -/
inductive TransportOutcome
  | ok (response : PeerMonitoringServiceResponse)
  | err
deriving DecidableEq

/-- The data captured by the spawned request task. -/
structure RequestTask where
  request_jitter_ms : Nat
  request_timeout_ms : Nat
  max_num_response_bytes : Nat
  monitoring_service_request : MonitoringServiceRequest
deriving DecidableEq

/-- The event trace of the spawned request task (lines 91-153 of
`peer_state.rs`): sleep out the jitter, send the request, mark the
request complete, then route the outcome — transport error or size
violation to the error handler, otherwise to the response handler
followed by the latency-metric observation. -/
def run_request_task_events (task : RequestTask)
    (outcome : TransportOutcome) : List RefreshEvent :=
  [.sleep task.request_jitter_ms, .send_request, .request_completed] ++
    match outcome with
    | .err => [.handle_error]
    | .ok response =>
      match sanity_check_response_size task.max_num_response_bytes response with
      | .error _ => [.handle_error]
      | .ok _ => [.handle_response, .observe_latency_metric]

/-- The outcome-processing tail of the request task (lines 117-152): the
branch that runs after the tracker has been marked complete. -/
def process_response_outcome (task : RequestTask) (outcome : TransportOutcome)
    (v : PeerStateValue) : PeerStateValue :=
  match outcome with
  | .err => v.handle_monitoring_service_response_error
  | .ok response =>
    match sanity_check_response_size task.max_num_response_bytes response with
    | .error _ => v.handle_monitoring_service_response_error
    | .ok _ => v.handle_monitoring_service_response

/-- The effect of the spawned request task on the state cell it captured
(lines 110-152): mark the in-flight request complete, then process the
outcome. -/
def run_request_task_value (task : RequestTask) (outcome : TransportOutcome)
    (v : PeerStateValue) : PeerStateValue :=
  process_response_outcome task outcome
    { v with request_tracker := v.request_tracker.request_completed }

/-- The result of `refresh_peer_state_key`: a hard failure from the
synchronous prologue when the key is absent, a panic of the jitter
computation on an empty range (the map already carries the started
tracker at that point), or success with the updated map, the synchronous
event trace, and the spawned task. -/
inductive RefreshResult
  | failed (e : Error)
  | panicked (state : PeerState)
  | ok (state : PeerState) (sync_events : List RefreshEvent) (task : RequestTask)
deriving DecidableEq

/-- Shallow embedding of `PeerState::refresh_peer_state_key` (lines
60-163 of `peer_state.rs`). Synchronously: look up the state entry, mark
the request started on its tracker, build the monitoring service
request, compute the random jitter and the timeout; then spawn the
request task and return. The transport collaborator, the id generator
and the runtime handle influence only the spawned task and are
abstracted into the task model; `now` is the time-service clock and
`entropy` the random draw. -/
def PeerState.refresh_peer_state_key (ps : PeerState)
    (monitoring_service_config : PeerMonitoringServiceConfig)
    (peer_state_key : PeerStateKey) (now entropy : Nat) : RefreshResult :=
  match ps.get_peer_state_value peer_state_key with
  | .error e => .failed e
  | .ok v =>
    let v₁ :=
      { v with request_tracker := v.request_tracker.request_started now }
    let created := v₁.create_monitoring_service_request
    let v₂ := created.1
    match gen_range 0 monitoring_service_config.max_request_jitter_ms entropy with
    | none => .panicked (ps.set_value peer_state_key v₂)
    | some request_jitter_ms =>
      .ok (ps.set_value peer_state_key v₂)
        [.request_started, .create_request,
          .compute_jitter request_jitter_ms, .spawn_task]
        { request_jitter_ms := request_jitter_ms,
          request_timeout_ms := v₂.get_request_timeout_ms,
          max_num_response_bytes :=
            monitoring_service_config.max_num_response_bytes,
          monitoring_service_request := created.2 }

/-- The completion of a spawned request task at the peer state level: the
task writes the processed value back through the shared cell it holds
for its key. -/
def PeerState.complete_request_task (ps : PeerState) (key : PeerStateKey)
    (task : RequestTask) (outcome : TransportOutcome) : PeerState :=
  match ps.get_peer_state_value key with
  | .error _ => ps
  | .ok v => ps.set_value key (run_request_task_value task outcome v)

/-- Modelled from the spec: the outer monitor loop (outside the provided
sources) treats a key whose tracker is in-flight as busy and skips it,
dispatching no request; only for an idle tracker does it invoke
`refresh_peer_state_key`. Returns `none` when the key was skipped. -/
def PeerState.outer_loop_refresh (ps : PeerState)
    (monitoring_service_config : PeerMonitoringServiceConfig)
    (peer_state_key : PeerStateKey) (now entropy : Nat) :
    Option RefreshResult :=
  match ps.get_request_tracker peer_state_key with
  | .error _ => none
  | .ok tracker =>
    if tracker.in_flight then none
    else some (ps.refresh_peer_state_key monitoring_service_config
      peer_state_key now entropy)

/-! ## Helper lemmas about the peer state map and the orchestrator -/

theorem lookupEntry_set (m : List (PeerStateKey × PeerStateValue))
    (k : PeerStateKey) (v : PeerStateValue) :
    lookupEntry (m.map fun e => if e.1 = k then (e.1, v) else e) k =
      (lookupEntry m k).map fun _ => v := by
  induction m with
  | nil => simp [lookupEntry]
  | cons e rest ih =>
    by_cases h : e.1 = k <;> simp [lookupEntry, h, ih]

theorem get_peer_state_value_set (ps : PeerState) (key : PeerStateKey)
    (v w : PeerStateValue) (h : ps.get_peer_state_value key = .ok w) :
    (ps.set_value key v).get_peer_state_value key = .ok v := by
  unfold PeerState.get_peer_state_value at h ⊢
  unfold PeerState.set_value
  rw [lookupEntry_set]
  cases hl : lookupEntry ps.state_entries key with
  | none => rw [hl] at h; cases h
  | some u => simp

theorem keys_map_set (m : List (PeerStateKey × PeerStateValue))
    (k : PeerStateKey) (v : PeerStateValue) :
    (m.map fun e => if e.1 = k then (e.1, v) else e).map (·.1) =
      m.map (·.1) := by
  induction m with
  | nil => simp
  | cons e rest ih => by_cases h : e.1 = k <;> simp [h, ih]

theorem keys_set_value (ps : PeerState) (key : PeerStateKey)
    (v : PeerStateValue) : (ps.set_value key v).keys = ps.keys := by
  unfold PeerState.set_value PeerState.keys
  exact keys_map_set ps.state_entries key v

theorem gen_range_bounds (low high entropy j : Nat)
    (h : gen_range low high entropy = some j) : low ≤ j ∧ j < high := by
  unfold gen_range at h
  by_cases hlt : low < high
  · simp only [hlt, if_true, Option.some.injEq] at h
    have := Nat.mod_lt entropy (show 0 < high - low by omega)
    omega
  · simp [hlt] at h

/-- Inversion of a successful `refresh_peer_state_key`: the synchronous
prologue looked the entry up, marked its tracker started, built the
request, drew a jitter, and stored the updated value back in place. -/
theorem refresh_ok_inv (ps : PeerState) (cfg : PeerMonitoringServiceConfig)
    (key : PeerStateKey) (now entropy : Nat) (s : PeerState)
    (ev : List RefreshEvent) (task : RequestTask)
    (h : ps.refresh_peer_state_key cfg key now entropy = .ok s ev task) :
    ∃ v j, ps.get_peer_state_value key = .ok v ∧
      gen_range 0 cfg.max_request_jitter_ms entropy = some j ∧
      s = ps.set_value key
        { key := v.key,
          request_tracker := v.request_tracker.request_started now,
          request_counter := v.request_counter + 1,
          base_timeout_ms := v.base_timeout_ms } ∧
      ev = [.request_started, .create_request, .compute_jitter j,
        .spawn_task] ∧
      task =
        { request_jitter_ms := j,
          request_timeout_ms := v.base_timeout_ms,
          max_num_response_bytes := cfg.max_num_response_bytes,
          monitoring_service_request := ⟨v.key⟩ } := by
  unfold PeerState.refresh_peer_state_key at h
  cases hv : ps.get_peer_state_value key with
  | error e => rw [hv] at h; cases h
  | ok v =>
    rw [hv] at h
    cases hg : gen_range 0 cfg.max_request_jitter_ms entropy with
    | none => rw [hg] at h; cases h
    | some j =>
      rw [hg] at h
      refine ⟨v, j, rfl, rfl, ?_⟩
      simp only [RefreshResult.ok.injEq] at h
      obtain ⟨h₁, h₂, h₃⟩ := h
      refine ⟨h₁.symm, h₂.symm, h₃.symm⟩

theorem process_response_outcome_in_flight (task : RequestTask)
    (outcome : TransportOutcome) (v : PeerStateValue) :
    (process_response_outcome task outcome v).request_tracker.in_flight =
      v.request_tracker.in_flight := by
  cases outcome with
  | err =>
    simp [process_response_outcome,
      PeerStateValue.handle_monitoring_service_response_error,
      RequestTracker.record_failure]
  | ok response =>
    cases hs : sanity_check_response_size task.max_num_response_bytes response with
    | error e =>
      simp [process_response_outcome, hs,
        PeerStateValue.handle_monitoring_service_response_error,
        RequestTracker.record_failure]
    | ok u =>
      simp [process_response_outcome, hs,
        PeerStateValue.handle_monitoring_service_response,
        RequestTracker.record_success]

/-! ## Concrete sample values used by the witnesses -/

/-- A concrete monitoring service configuration. -/
def sample_config : PeerMonitoringServiceConfig :=
  { max_request_jitter_ms := 100, max_num_response_bytes := 1000,
    max_request_timeout_ms := 500 }

/-- A concrete node configuration. -/
def sample_node_config : NodeConfig := ⟨sample_config⟩

/-- A freshly constructed peer state. -/
def sample_peer_state : PeerState := PeerState.new sample_node_config

/-- The latency entry of `sample_peer_state`. -/
def sample_latency_value : PeerStateValue :=
  PeerStateValue.new sample_node_config .LatencyInfo

/-- The latency entry after one refresh prologue at time 42. -/
def sample_started_value : PeerStateValue :=
  { key := .LatencyInfo, request_tracker := ⟨true, some 42, 0⟩,
    request_counter := 1, base_timeout_ms := 500 }

/-- The peer state after one refresh prologue on the latency key. -/
def sample_started_state : PeerState :=
  ⟨[(.LatencyInfo, sample_started_value),
    (.NetworkInfo, PeerStateValue.new sample_node_config .NetworkInfo),
    (.NodeInfo, PeerStateValue.new sample_node_config .NodeInfo)]⟩

/-- The task spawned by that refresh (entropy 7 gives jitter 7). -/
def sample_task : RequestTask :=
  { request_jitter_ms := 7, request_timeout_ms := 500,
    max_num_response_bytes := 1000,
    monitoring_service_request := ⟨.LatencyInfo⟩ }

/-- The synchronous event trace of that refresh. -/
def sample_sync_events : List RefreshEvent :=
  [.request_started, .create_request, .compute_jitter 7, .spawn_task]

/-! ## Claims about the refresh orchestrator -/

/-- C2: for every successful call to `refresh_peer_state_key`, the
tracker's `request_started` (setting the in-flight flag and the last
request time) executes synchronously inside refresh itself: the state
returned together with the join handle already carries an in-flight
tracker with the updated last-request time, the `request_started` event
precedes the `spawn_task` event in the synchronous trace, and the
spawned task's own trace never performs `request_started`. -/
theorem refresh_marks_request_started_synchronously
    (ps : PeerState) (cfg : PeerMonitoringServiceConfig) (key : PeerStateKey)
    (now entropy : Nat) (s : PeerState) (ev : List RefreshEvent)
    (task : RequestTask)
    (h : ps.refresh_peer_state_key cfg key now entropy = .ok s ev task) :
    (∃ t, s.get_request_tracker key = .ok t ∧ t.in_flight = true ∧
      t.last_request_time = some now) ∧
    (∃ j, ev = [RefreshEvent.request_started, RefreshEvent.create_request,
      RefreshEvent.compute_jitter j, RefreshEvent.spawn_task]) ∧
    ∀ outcome,
      RefreshEvent.request_started ∉ run_request_task_events task outcome := by
  obtain ⟨v, j, hv, hg, hsv, hev, htask⟩ :=
    refresh_ok_inv ps cfg key now entropy s ev task h
  refine ⟨⟨v.request_tracker.request_started now, ?_, rfl, rfl⟩, ⟨j, hev⟩, ?_⟩
  · subst hsv
    rw [PeerState.get_request_tracker, get_peer_state_value_set ps key _ v hv]
    rfl
  · intro outcome
    cases outcome with
    | err => simp [run_request_task_events]
    | ok response =>
      cases hsan :
          sanity_check_response_size task.max_num_response_bytes response with
      | error e => simp [run_request_task_events, hsan]
      | ok u => simp [run_request_task_events, hsan]

/-- Witness for C2 at a concrete refresh of the latency key. -/
theorem refresh_marks_request_started_synchronously_witness :
    RefreshEvent.request_started ∉
      run_request_task_events sample_task TransportOutcome.err :=
  (refresh_marks_request_started_synchronously sample_peer_state sample_config
    .LatencyInfo 42 7 sample_started_state sample_sync_events sample_task
    (by decide)).2.2 .err

/-- C8: for every successful call to `refresh_peer_state_key`, whatever
the random draw, the jitter captured by the spawned task lies in the
closed interval from 0 to the configured `max_request_jitter_ms`. -/
theorem refresh_jitter_within_configured_bound
    (ps : PeerState) (cfg : PeerMonitoringServiceConfig) (key : PeerStateKey)
    (now entropy : Nat) (s : PeerState) (ev : List RefreshEvent)
    (task : RequestTask)
    (h : ps.refresh_peer_state_key cfg key now entropy = .ok s ev task) :
    task.request_jitter_ms ≤ cfg.max_request_jitter_ms := by
  obtain ⟨v, j, hv, hg, hsv, hev, htask⟩ :=
    refresh_ok_inv ps cfg key now entropy s ev task h
  obtain ⟨hle, hlt⟩ := gen_range_bounds 0 cfg.max_request_jitter_ms entropy j hg
  subst htask
  show j ≤ cfg.max_request_jitter_ms
  omega

/-- Witness for C8 at a concrete refresh of the latency key. -/
theorem refresh_jitter_within_configured_bound_witness :
    sample_task.request_jitter_ms ≤ sample_config.max_request_jitter_ms :=
  refresh_jitter_within_configured_bound sample_peer_state sample_config
    .LatencyInfo 42 7 sample_started_state sample_sync_events sample_task
    (by decide)

/-- C10: the jitter computation in the synchronous prologue of
`refresh_peer_state_key` panics on an empty sampling range: with
`max_request_jitter_ms = 0` every refresh of a present key panics, while
with a strictly positive `max_request_jitter_ms` the jitter draw
succeeds and refresh returns a spawned task. -/
theorem refresh_panics_on_zero_jitter_config
    (ps : PeerState) (cfg : PeerMonitoringServiceConfig) (key : PeerStateKey)
    (now entropy : Nat) (v : PeerStateValue)
    (hkey : ps.get_peer_state_value key = .ok v) :
    (cfg.max_request_jitter_ms = 0 →
      ∃ s, ps.refresh_peer_state_key cfg key now entropy = .panicked s) ∧
    (0 < cfg.max_request_jitter_ms →
      ∃ s ev task,
        ps.refresh_peer_state_key cfg key now entropy = .ok s ev task) := by
  constructor
  · intro h0
    unfold PeerState.refresh_peer_state_key
    rw [hkey]
    simp [gen_range, h0]
  · intro hpos
    unfold PeerState.refresh_peer_state_key
    rw [hkey]
    simp [gen_range, hpos]

/-- Witness for C10: with a zero jitter configuration the concrete
refresh panics; with the positive sample configuration it succeeds. -/
theorem refresh_panics_on_zero_jitter_config_witness :
    (∃ s, sample_peer_state.refresh_peer_state_key
      ⟨0, 1000, 500⟩ .LatencyInfo 42 7 = .panicked s) ∧
    (∃ s ev task, sample_peer_state.refresh_peer_state_key
      sample_config .LatencyInfo 42 7 = .ok s ev task) :=
  ⟨(refresh_panics_on_zero_jitter_config sample_peer_state ⟨0, 1000, 500⟩
      .LatencyInfo 42 7 sample_latency_value rfl).1 rfl,
   (refresh_panics_on_zero_jitter_config sample_peer_state sample_config
      .LatencyInfo 42 7 sample_latency_value rfl).2 (by decide)⟩

/-- C1: once a refresh for a key has started and not yet completed, the
monitor loop observes the key busy and a second refresh attempt for the
same key dispatches nothing (the at-most-one-in-flight invariant); after
the spawned task completes, the key becomes refreshable again. -/
theorem no_second_dispatch_while_in_flight
    (ps : PeerState) (cfg : PeerMonitoringServiceConfig) (key : PeerStateKey)
    (now entropy : Nat) (s : PeerState) (ev : List RefreshEvent)
    (task : RequestTask) (now₂ entropy₂ : Nat)
    (h : ps.refresh_peer_state_key cfg key now entropy = .ok s ev task) :
    s.outer_loop_refresh cfg key now₂ entropy₂ = none ∧
    ∀ outcome, ∃ result,
      (s.complete_request_task key task outcome).outer_loop_refresh
        cfg key now₂ entropy₂ = some result := by
  obtain ⟨v, j, hv, hg, hsv, hev, htask⟩ :=
    refresh_ok_inv ps cfg key now entropy s ev task h
  have hget : s.get_peer_state_value key = .ok
      { key := v.key,
        request_tracker := v.request_tracker.request_started now,
        request_counter := v.request_counter + 1,
        base_timeout_ms := v.base_timeout_ms } := by
    subst hsv
    exact get_peer_state_value_set ps key _ v hv
  constructor
  · unfold PeerState.outer_loop_refresh
    rw [PeerState.get_request_tracker, hget]
    simp [Except.map, RequestTracker.request_started]
  · intro outcome
    unfold PeerState.complete_request_task
    rw [hget]
    have hget₂ := get_peer_state_value_set s key
      (run_request_task_value task outcome
        { key := v.key,
          request_tracker := v.request_tracker.request_started now,
          request_counter := v.request_counter + 1,
          base_timeout_ms := v.base_timeout_ms }) _ hget
    unfold PeerState.outer_loop_refresh
    rw [PeerState.get_request_tracker, hget₂]
    have hflag : (run_request_task_value task outcome
        { key := v.key,
          request_tracker := v.request_tracker.request_started now,
          request_counter := v.request_counter + 1,
          base_timeout_ms := v.base_timeout_ms }).request_tracker.in_flight =
        false := by
      unfold run_request_task_value
      rw [process_response_outcome_in_flight]
      rfl
    simp [Except.map, hflag]

/-- Witness for C1: the second refresh attempt on the started sample
state dispatches nothing. -/
theorem no_second_dispatch_while_in_flight_witness :
    sample_started_state.outer_loop_refresh sample_config
      PeerStateKey.LatencyInfo 43 8 = none :=
  (no_second_dispatch_while_in_flight sample_peer_state sample_config
    .LatencyInfo 42 7 sample_started_state sample_sync_events sample_task
    43 8 (by decide)).1

/-- C3: for every spawned request task that runs to completion, whatever
the transport outcome (success, error, or size rejection), the trace
performs `request_completed` exactly once, strictly after
`send_request`, and the state cell's tracker ends the attempt idle —
never permanently in-flight. -/
theorem request_completed_exactly_once (task : RequestTask)
    (outcome : TransportOutcome) (v : PeerStateValue) :
    (run_request_task_events task outcome).count
      RefreshEvent.request_completed = 1 ∧
    (∃ tail, run_request_task_events task outcome =
      [RefreshEvent.sleep task.request_jitter_ms, RefreshEvent.send_request,
        RefreshEvent.request_completed] ++ tail) ∧
    (run_request_task_value task outcome v).request_tracker.in_flight =
      false := by
  refine ⟨?_, ?_, ?_⟩
  · cases outcome with
    | err => simp [run_request_task_events]
    | ok response =>
      cases hsan :
          sanity_check_response_size task.max_num_response_bytes response with
      | error e => simp [run_request_task_events, hsan]
      | ok u => simp [run_request_task_events, hsan]
  · exact ⟨_, rfl⟩
  · unfold run_request_task_value
    rw [process_response_outcome_in_flight]
    rfl

/-- C9: in the spawned task the tracker is marked complete before the
outcome is processed: the trace performs `request_completed` strictly
before any `handle_error` or `handle_response`, and the outcome handlers
run on the state cell whose tracker is already idle. -/
theorem tracker_idle_before_outcome_processed (task : RequestTask)
    (outcome : TransportOutcome) (v : PeerStateValue) :
    (∃ tail, run_request_task_events task outcome =
      [RefreshEvent.sleep task.request_jitter_ms, RefreshEvent.send_request,
        RefreshEvent.request_completed] ++ tail ∧
      RefreshEvent.request_completed ∉ tail ∧
      (RefreshEvent.handle_error ∈ tail ∨
        RefreshEvent.handle_response ∈ tail)) ∧
    run_request_task_value task outcome v =
      process_response_outcome task outcome
        { v with request_tracker := v.request_tracker.request_completed } ∧
    ({ v with request_tracker := v.request_tracker.request_completed }
      : PeerStateValue).request_tracker.in_flight = false := by
  refine ⟨?_, rfl, rfl⟩
  cases outcome with
  | err => exact ⟨[.handle_error], rfl, by simp, Or.inl (by simp)⟩
  | ok response =>
    cases hsan :
        sanity_check_response_size task.max_num_response_bytes response with
    | error e =>
      exact ⟨[.handle_error], by simp [run_request_task_events, hsan],
        by simp, Or.inl (by simp)⟩
    | ok u =>
      exact ⟨[.handle_response, .observe_latency_metric],
        by simp [run_request_task_events, hsan], by simp, Or.inr (by simp)⟩

/-- C4: transport errors and oversized responses are routed through the
error handler: the trace contains `handle_error`, never
`handle_response` and no latency-metric observation, and the state cell
is updated through `handle_monitoring_service_response_error` (the
response is not merged into the dimension state); the latency metric is
observed exactly on the traces where `handle_response` runs. -/
theorem errors_and_oversized_route_to_handle_error (task : RequestTask)
    (response : PeerMonitoringServiceResponse) (v : PeerStateValue) :
    (RefreshEvent.handle_error ∈ run_request_task_events task .err ∧
      RefreshEvent.handle_response ∉ run_request_task_events task .err ∧
      RefreshEvent.observe_latency_metric ∉
        run_request_task_events task .err ∧
      run_request_task_value task .err v =
        PeerStateValue.handle_monitoring_service_response_error
          { v with request_tracker := v.request_tracker.request_completed }) ∧
    (task.max_num_response_bytes < response.encode.length →
      RefreshEvent.handle_error ∈
        run_request_task_events task (.ok response) ∧
      RefreshEvent.handle_response ∉
        run_request_task_events task (.ok response) ∧
      RefreshEvent.observe_latency_metric ∉
        run_request_task_events task (.ok response) ∧
      run_request_task_value task (.ok response) v =
        PeerStateValue.handle_monitoring_service_response_error
          { v with request_tracker := v.request_tracker.request_completed }) ∧
    ∀ outcome,
      RefreshEvent.observe_latency_metric ∈
          run_request_task_events task outcome ↔
        RefreshEvent.handle_response ∈ run_request_task_events task outcome := by
  refine ⟨⟨?_, ?_, ?_, rfl⟩, ?_, ?_⟩
  · simp [run_request_task_events]
  · simp [run_request_task_events]
  · simp [run_request_task_events]
  · intro hsize
    have hsan : sanity_check_response_size task.max_num_response_bytes
        response = .error
          (.UnexpectedError "The monitoring service response is too large") := by
      unfold sanity_check_response_size
        PeerMonitoringServiceResponse.get_num_bytes
      simp [hsize]
    refine ⟨?_, ?_, ?_, ?_⟩ <;>
      simp [run_request_task_events, run_request_task_value,
        process_response_outcome, hsan]
  · intro outcome
    cases outcome with
    | err => simp [run_request_task_events]
    | ok r =>
      cases hsan :
          sanity_check_response_size task.max_num_response_bytes r with
      | error e => simp [run_request_task_events, hsan]
      | ok u => simp [run_request_task_events, hsan]

/-- Witness for C4: a nine-byte latency ping response exceeds a zero-byte
ceiling and is not routed through the response handler. -/
theorem errors_and_oversized_route_to_handle_error_witness :
    RefreshEvent.handle_response ∉
      run_request_task_events ⟨3, 500, 0, ⟨.LatencyInfo⟩⟩
        (.ok (.LatencyPing ⟨5⟩)) :=
  ((errors_and_oversized_route_to_handle_error ⟨3, 500, 0, ⟨.LatencyInfo⟩⟩
    (.LatencyPing ⟨5⟩) sample_latency_value).2.1 (by decide)).2.1

/-- C5: a freshly constructed peer state contains exactly one state entry
per key of the registry's complete key set — no more, no fewer — each
with an idle tracker; and the later operations (the refresh prologue's
in-place write, the task-completion write-back, and value replacement in
general) never add, remove, or re-key an entry. -/
theorem peer_state_map_has_fixed_key_set (node_config : NodeConfig) :
    (PeerState.new node_config).keys = PeerStateKey.get_all_keys ∧
    PeerStateKey.get_all_keys.Nodup ∧
    (∀ e ∈ (PeerState.new node_config).state_entries,
      e.2.request_tracker = RequestTracker.new ∧
        e.2.request_tracker.in_flight = false) ∧
    (∀ (ps : PeerState) (key : PeerStateKey) (v : PeerStateValue),
      (PeerState.set_value ps key v).keys = ps.keys) ∧
    (∀ (ps : PeerState) (cfg : PeerMonitoringServiceConfig)
      (key : PeerStateKey) (now entropy : Nat) (s : PeerState)
      (ev : List RefreshEvent) (task : RequestTask),
      ps.refresh_peer_state_key cfg key now entropy =
        RefreshResult.ok s ev task → s.keys = ps.keys) ∧
    (∀ (ps : PeerState) (key : PeerStateKey) (task : RequestTask)
      (outcome : TransportOutcome),
      (ps.complete_request_task key task outcome).keys = ps.keys) := by
  have hentries : (PeerState.new node_config).state_entries =
      [(.LatencyInfo, PeerStateValue.new node_config .LatencyInfo),
       (.NetworkInfo, PeerStateValue.new node_config .NetworkInfo),
       (.NodeInfo, PeerStateValue.new node_config .NodeInfo)] := rfl
  refine ⟨rfl, by decide, ?_, keys_set_value, ?_, ?_⟩
  · intro e he
    rw [hentries] at he
    simp only [List.mem_cons, List.not_mem_nil, or_false] at he
    rcases he with h | h | h <;> subst h <;> exact ⟨rfl, rfl⟩
  · intro ps cfg key now entropy s ev task h
    obtain ⟨v, j, hv, hg, hsv, hev, htask⟩ :=
      refresh_ok_inv ps cfg key now entropy s ev task h
    subst hsv
    exact keys_set_value ps key _
  · intro ps key task outcome
    unfold PeerState.complete_request_task
    cases hv : ps.get_peer_state_value key with
    | error e => rfl
    | ok v => exact keys_set_value ps key _

/-- Witness for C5: the sample states preserve the registry key set
through construction, a concrete refresh, and a concrete completion. -/
theorem peer_state_map_has_fixed_key_set_witness :
    (PeerState.new sample_node_config).keys = PeerStateKey.get_all_keys ∧
    sample_started_state.keys = sample_peer_state.keys ∧
    (sample_started_state.complete_request_task .LatencyInfo sample_task
      TransportOutcome.err).keys = sample_started_state.keys :=
  ⟨(peer_state_map_has_fixed_key_set sample_node_config).1,
   (peer_state_map_has_fixed_key_set sample_node_config).2.2.2.2.1
     sample_peer_state sample_config .LatencyInfo 42 7 sample_started_state
     sample_sync_events sample_task (by decide),
   (peer_state_map_has_fixed_key_set sample_node_config).2.2.2.2.2
     sample_started_state .LatencyInfo sample_task .err⟩

/-- C6: serializing any well-formed response value of any case and then
deserializing the resulting bytes yields the original value, and
`get_num_bytes` returns the byte length of the serialization. -/
theorem response_serialization_round_trip (r : PeerMonitoringServiceResponse)
    (h : r.WF) :
    PeerMonitoringServiceResponse.decode r.encode = some r ∧
      r.get_num_bytes = .ok r.encode.length := by
  refine ⟨?_, rfl⟩
  have hp : PeerMonitoringServiceResponse.parse r.encode = some (r, []) := by
    have hpp := response_parse_encode r h []
    simpa using hpp
  simp [PeerMonitoringServiceResponse.decode, hp]

/-- A concrete network information response with one connected peer. -/
def sample_response : PeerMonitoringServiceResponse :=
  .NetworkInformation
    { connected_peers :=
        [(⟨.Public, List.replicate 32 7⟩,
          ⟨[1, 2], List.replicate 32 9, .Unknown⟩)],
      distance_from_validators := 2 }

/-- Witness for C6 at a concrete network information response. -/
theorem response_serialization_round_trip_witness :
    sample_response.WF ∧
      (PeerMonitoringServiceResponse.decode sample_response.encode =
        some sample_response ∧
       sample_response.get_num_bytes = .ok sample_response.encode.length) :=
  ⟨by decide, response_serialization_round_trip sample_response (by decide)⟩

/-- C7: each typed extraction from the response union succeeds with the
inner record exactly when the union case matches the target type, and
yields an `UnexpectedResponseError` exactly otherwise; the extractions
are total functions and never panic. -/
theorem try_from_ok_iff_matching_case
    (response : PeerMonitoringServiceResponse) :
    (∀ inner, LatencyPingResponse.try_from response = .ok inner ↔
      response = .LatencyPing inner) ∧
    ((∃ e, LatencyPingResponse.try_from response = .error e) ↔
      ¬ ∃ inner, response = .LatencyPing inner) ∧
    (∀ inner, NetworkInformationResponse.try_from response = .ok inner ↔
      response = .NetworkInformation inner) ∧
    ((∃ e, NetworkInformationResponse.try_from response = .error e) ↔
      ¬ ∃ inner, response = .NetworkInformation inner) ∧
    (∀ inner, NodeInformationResponse.try_from response = .ok inner ↔
      response = .NodeInformation inner) ∧
    ((∃ e, NodeInformationResponse.try_from response = .error e) ↔
      ¬ ∃ inner, response = .NodeInformation inner) ∧
    (∀ inner, ServerProtocolVersionResponse.try_from response = .ok inner ↔
      response = .ServerProtocolVersion inner) ∧
    ((∃ e, ServerProtocolVersionResponse.try_from response = .error e) ↔
      ¬ ∃ inner, response = .ServerProtocolVersion inner) := by
  cases response <;>
    simp [LatencyPingResponse.try_from, NetworkInformationResponse.try_from,
      NodeInformationResponse.try_from, ServerProtocolVersionResponse.try_from,
      eq_comm]

/-- Witness for C3 at a concrete task and a transport error outcome. -/
theorem request_completed_exactly_once_witness :
    (run_request_task_events sample_task TransportOutcome.err).count
      RefreshEvent.request_completed = 1 ∧
    (∃ tail, run_request_task_events sample_task TransportOutcome.err =
      [RefreshEvent.sleep sample_task.request_jitter_ms,
        RefreshEvent.send_request, RefreshEvent.request_completed] ++ tail) ∧
    (run_request_task_value sample_task TransportOutcome.err
      sample_latency_value).request_tracker.in_flight = false :=
  request_completed_exactly_once sample_task .err sample_latency_value

/-- Witness for C9 at a concrete task and a transport error outcome. -/
theorem tracker_idle_before_outcome_processed_witness :
    (∃ tail, run_request_task_events sample_task TransportOutcome.err =
      [RefreshEvent.sleep sample_task.request_jitter_ms,
        RefreshEvent.send_request, RefreshEvent.request_completed] ++ tail ∧
      RefreshEvent.request_completed ∉ tail ∧
      (RefreshEvent.handle_error ∈ tail ∨
        RefreshEvent.handle_response ∈ tail)) ∧
    run_request_task_value sample_task TransportOutcome.err
        sample_latency_value =
      process_response_outcome sample_task TransportOutcome.err
        { sample_latency_value with request_tracker :=
            sample_latency_value.request_tracker.request_completed } ∧
    ({ sample_latency_value with request_tracker :=
        sample_latency_value.request_tracker.request_completed }
      : PeerStateValue).request_tracker.in_flight = false :=
  tracker_idle_before_outcome_processed sample_task .err sample_latency_value

/-- Witness for C7: extracting a latency ping from a protocol version
response yields an error. -/
theorem try_from_ok_iff_matching_case_witness :
    (∃ e, LatencyPingResponse.try_from (.ServerProtocolVersion ⟨1⟩) =
      .error e) ↔
      ¬ ∃ inner,
        (PeerMonitoringServiceResponse.ServerProtocolVersion ⟨1⟩) =
          .LatencyPing inner :=
  (try_from_ok_iff_matching_case (.ServerProtocolVersion ⟨1⟩)).2.1
